import Mathlib

/-!
Verification of the scan orchestration pipeline of `platform/api/app.py`
(centralized security scanning platform REST API).

The relevant Python functions are embedded shallowly:

* `inspect_repository` (lines 58-106) over an abstract snapshot of the staged
  directory tree (a list of files given by their relative path components, in
  traversal order);
* `generate_scan_config` (lines 108-140) producing a JSON-like document;
* the configuration handling portion of `upload_scan` (lines 196-221);
* the summary-generation / outcome-classification portion of `execute_scan`
  (lines 292-363), with Python local-variable scoping made explicit where it
  matters (the local `status` is assigned only at line 353).
-/

/-- JSON-like structured values, as produced by `json.loads` / consumed by
`json.dump`.  Objects keep field insertion order, as Python dicts do. -/
inductive Json where
  | null
  | bool (b : Bool)
  | num (n : Int)
  | str (s : String)
  | arr (elems : List Json)
  | obj (fields : List (String × Json))

/-- Python truthiness of a JSON value: `None`, `False`, `0`, `""`, `[]` and
`\x7b\x7d` are falsy, everything else is truthy. -/
def Json.truthy : Json → Bool
  | .null => false
  | .bool b => b
  | .num n => n != 0
  | .str s => s != ""
  | .arr elems => !elems.isEmpty
  | .obj fields => !fields.isEmpty

/-- Dictionary lookup `j[k]` on an object, `none` when the key is absent or
the value is not an object. -/
def Json.get? (j : Json) (k : String) : Option Json :=
  match j with
  | .obj fields => (fields.find? (fun kv => kv.1 == k)).map (fun kv => kv.2)
  | _ => none

example : (Json.obj [("a", .num 1), ("b", .num 2)]).get? "b" = some (.num 2) := rfl
example : Json.truthy (.obj []) = false := rfl

/-!
## Repository Inspector (`inspect_repository`, app.py lines 58-106)

The staged directory tree is abstracted as the list of its files in the
traversal order `Path.rglob` would produce, each given by its path components
relative to the repository root.  `rglob(pattern)` for a literal filename
yields exactly the files whose final component equals the pattern; for
`*{ext}` it yields the files whose final component ends with `ext`.
-/

/-- Python `s.endswith(suffix)`: the characters of `suffix` are a suffix of
the characters of `s`. -/
def pyEndsWith (s suffix : String) : Bool :=
  suffix.data.isSuffixOf s.data

example : pyEndsWith "results.json" ".json" = true := rfl
example : pyEndsWith "results.txt" ".json" = false := rfl

/-- A file of the staged tree, by its path components relative to the root
(for example `a/b/package.json` is `["a", "b", "package.json"]`). -/
structure PyFile where
  components : List String
deriving DecidableEq, Repr

/-- The name of the file: its last path component (`Path.name`). -/
def PyFile.name (f : PyFile) : String :=
  f.components.getLast?.getD ""

/-- Result of `inspect_repository`: the `detected` dict of app.py lines 60-65.
`dependency_files` holds relative paths (as component lists). -/
structure Detected where
  languages : List String
  has_dockerfile : Bool
  has_dependencies : Bool
  dependency_files : List (List String)
deriving DecidableEq, Repr

/-- The fixed dependency-manifest catalog, app.py lines 74-82, in source
order. -/
def dep_patterns : List String :=
  ["package.json", "package-lock.json", "yarn.lock", "pnpm-lock.yaml",
   "requirements.txt", "Pipfile.lock", "poetry.lock",
   "pom.xml", "build.gradle", "gradle.lockfile",
   "go.mod", "go.sum",
   "Cargo.toml", "Cargo.lock",
   "Gemfile", "Gemfile.lock",
   "composer.lock"]

/-- The fixed language-extension map, app.py lines 91-98, in insertion
order. -/
def lang_extensions : List (String × List String) :=
  [("java", [".java"]),
   ("cpp", [".cpp", ".c", ".h", ".hpp"]),
   ("go", [".go"]),
   ("javascript", [".js", ".jsx", ".ts", ".tsx"]),
   ("python", [".py"]),
   ("csharp", [".cs"])]

/-- First `rglob` match for a literal filename pattern: the first file in
traversal order whose name equals the pattern. -/
def firstMatch (files : List PyFile) (pattern : String) : Option PyFile :=
  files.find? (fun f => f.name == pattern)

/-- One iteration of the dependency loop of app.py lines 84-88: the inner
`for`-with-`break` appends the first match of the pattern (if any) to
`dependency_files` and sets `has_dependencies`. -/
def depStep (files : List PyFile) (acc : List (List String) × Bool)
    (pattern : String) : List (List String) × Bool :=
  match firstMatch files pattern with
  | some f => (acc.1 ++ [f.components], true)
  | none => acc

/-- `inspect_repository` (app.py lines 58-106) over a tree snapshot. -/
def inspect_repository (files : List PyFile) : Detected :=
  -- lines 70-71: root-level `Dockerfile` or `docker-compose.yml`
  let has_dockerfile :=
    files.any (fun f => f.components == ["Dockerfile"]) ||
    files.any (fun f => f.components == ["docker-compose.yml"])
  -- lines 84-88: the dependency loop
  let dep := dep_patterns.foldl (depStep files) ([], false)
  -- lines 100-104: a language is appended once if any of its extensions has
  -- some match in the tree (`break` after the first matching extension)
  let languages := lang_extensions.filterMap (fun le =>
    if le.2.any (fun ext => files.any (fun f => pyEndsWith f.name ext))
    then some le.1 else none)
  { languages := languages
    has_dockerfile := has_dockerfile
    has_dependencies := dep.2
    dependency_files := dep.1 }

example :
    inspect_repository
      [⟨["src", "main.py"]⟩, ⟨["a", "package.json"]⟩, ⟨["b", "package.json"]⟩] =
    { languages := ["python"]
      has_dockerfile := false
      has_dependencies := true
      dependency_files := [["a", "package.json"]] } := by decide

example : inspect_repository [⟨["Dockerfile"]⟩, ⟨["go.mod"]⟩, ⟨["go.sum"]⟩] =
    { languages := []
      has_dockerfile := true
      has_dependencies := true
      dependency_files := [["go.mod"], ["go.sum"]] } := by decide

/-!
## Scan Configuration Synthesizer (`generate_scan_config`, app.py lines 108-140)

The configuration is the JSON document literally built at lines 113-138.
`inspection` is either `None` or the (always truthy, four-key) dict returned
by `inspect_repository`, so `inspection["..."] if inspection else True`
becomes a match on the option.
-/

/-- The default configuration dict of app.py lines 113-138. -/
def defaultScanConfig (upload_type target_path : String)
    (inspection : Option Detected) : Json :=
  .obj
    [("target", .obj
       [("type", .str upload_type),
        ("path", .str target_path)]),
     ("scan_scope", .obj
       [("type", .str (if upload_type = "repository" then "full" else "single_file")),
        ("paths", .arr [.str target_path]),
        ("single_file", if upload_type = "file" then .str target_path else .null)]),
     ("auto_detect", .bool true),
     ("scanners", .obj
       [("semgrep", .obj
          [("enabled", .bool true),
           ("config_path", .str "security/semgrep-rules")]),
        ("codeql", .obj
          [("enabled", .bool true),
           ("languages", .arr [.str "auto"]),
           ("build_mode", .str "auto")]),
        ("gitleaks", .obj
          [("enabled", .bool true),
           ("config_path", .str "security/gitleaks-rules/gitleaks.toml")]),
        ("osv_scanner", .obj
          [("enabled", .bool (match inspection with
             | some i => i.has_dependencies
             | none => true))]),
        ("trivy", .obj
          [("enabled", .bool (match inspection with
             | some i => i.has_dockerfile
             | none => true)),
           ("scan_type", .str "fs")]),
        ("syft", .obj
          [("enabled", .bool false),
           ("format", .str "spdx-json")]),
        ("noir", .obj
          [("enabled", .bool false)])]),
     ("output", .obj
       [("formats", .arr [.str "json", .str "sarif"]),
        ("storage", .str "local"),
        ("retention_days", .num 30)])]

/-- `generate_scan_config` (app.py lines 108-140): `if custom_config: return
custom_config` (line 110, Python truthiness), else the default document. -/
def generate_scan_config (upload_type target_path : String)
    (inspection : Option Detected) (custom_config : Option Json) : Json :=
  match custom_config with
  | some c => if c.truthy then c else defaultScanConfig upload_type target_path inspection
  | none => defaultScanConfig upload_type target_path inspection

/-- `scan_scope.type` of a configuration, as a string. -/
def scanScopeTypeOf (config : Json) : Option String :=
  match (config.get? "scan_scope").bind (fun s => s.get? "type") with
  | some (.str s) => some s
  | _ => none

/-- The `enabled` flag of one scanner toggle of a configuration. -/
def scannerEnabled (config : Json) (scanner : String) : Option Json :=
  ((config.get? "scanners").bind (fun s => s.get? scanner)).bind
    (fun t => t.get? "enabled")

/-!
## Upload-time configuration handling (`upload_scan`, app.py lines 196-221)

Only the decision logic behind the persisted configuration is modelled: which
uploads get inspected (lines 196-199), and that the document written to
`scan-config.json` (lines 211-213) and the one echoed in the 201 response
(lines 215-221) are both the value returned by `generate_scan_config`.
Staging (file/zip/repository materialization) is an out-of-scope collaborator.
-/

/-- Lines 196-199: inspection runs only for `repository` and `zip` uploads. -/
def inspection_for (upload_type : String) (files : List PyFile) : Option Detected :=
  if upload_type = "repository" ∨ upload_type = "zip"
  then some (inspect_repository files) else none

/-- Outcome of the configuration phase of a successful upload. -/
structure UploadOutcome where
  persistedConfig : Json
  responseConfig : Json
  httpStatus : Nat

/-- Lines 209-221: generate the configuration, persist it to
`scan-config.json`, and echo it in the 201 response body. -/
def upload_config_phase (upload_type target_path : String)
    (files : List PyFile) (custom_config : Option Json) : UploadOutcome :=
  let config := generate_scan_config upload_type target_path
    (inspection_for upload_type files) custom_config
  { persistedConfig := config
    responseConfig := config
    httpStatus := 201 }

/-!
## Scan execution outcome (`execute_scan`, app.py lines 226-368)

The dispatcher subprocess is the opaque Executor collaborator; the model
starts right after it returns (line 290), with the results directory contents
it produced, the dispatcher exit code, and whether the summary-generator
script was found on disk.

One Python scoping fact matters here: inside `execute_scan` the local
variable `status` is assigned only at line 353, yet the fallback-summary dict
literal at lines 318-324 reads it.  Reading a local before its assignment
raises `UnboundLocalError`, which the `except Exception` handler at line 367
turns into a 500 error response.  The embedding threads that unassigned local
explicitly as an `Option String` that is `none` at the read site.
-/

/-- A raised Python exception (only the one the modelled code can raise). -/
inductive PyExc where
  | unboundLocal (var : String)
deriving DecidableEq, Repr

/-- Python `s.split(sep)[0] if sep in s else "unknown"` for a one-character
separator: the prefix of `s` before the first occurrence of `c`. -/
def scanner_name_of (file : String) : String :=
  if file.data.contains (Char.ofNat 45)
  then ⟨file.data.takeWhile (fun a => a != Char.ofNat 45)⟩
  else "unknown"

example : scanner_name_of "semgrep-findings.json" = "semgrep" := by decide
example : scanner_name_of "results.json" = "unknown" := by decide

/-- Python dict assignment `d[k] = v`: overwrite in place when the key
exists, else append. -/
def pyDictSet (d : List (String × Json)) (k : String) (v : Json) :
    List (String × Json) :=
  if d.any (fun kv => kv.1 == k)
  then d.map (fun kv => if kv.1 == k then (k, v) else kv)
  else d ++ [(k, v)]

/-- Filter of app.py lines 327-328 and 350-351: files with a recognized
result extension. -/
def result_file_filter (names : List String) : List String :=
  names.filter (fun f => pyEndsWith f ".json" || pyEndsWith f ".sarif")

/-- Lines 349-351: `results_exist`, true when the results directory exists
and holds at least one file with a recognized result extension (`none`
models a missing directory). -/
def results_exist (resultsDir : Option (List String)) : Bool :=
  match resultsDir with
  | none => false
  | some names => (result_file_filter names).length > 0

/-- Line 353: the derived scan status. -/
def scan_status (returncode : Int) (resultsDir : Option (List String)) : String :=
  if returncode = 0 ∨ results_exist resultsDir = true then "completed" else "failed"

/-- The fallback summary of app.py lines 317-340, built when the
summary-generator script is absent.  `status` is the current value of the
local variable `status` at the read of line 322: `none` when it has not been
assigned yet, in which case the dict literal raises `UnboundLocalError`.
`resultsDirFiles` are the (name, size) pairs in the results directory, which
exists (created at line 243). -/
def fallback_summary (scanId timestamp : String) (status : Option String)
    (resultsDirFiles : List (String × Nat)) : Except PyExc Json := do
  -- lines 318-324: the metadata dict literal reads `status`
  let st ← match status with
    | some s => (pure s : Except PyExc String)
    | none => throw (PyExc.unboundLocal "status")
  let init : List (String × Json) :=
    [("metadata", .obj
       [("timestamp", .str timestamp),
        ("scan_id", .str scanId),
        ("status", .str st)])]
  -- lines 326-337: one entry per recognized result file, keyed by the
  -- scanner name (text before the first dash), findings fixed at 0
  let result_files := result_file_filter (resultsDirFiles.map (fun f => f.1))
  let sizeOfFile := fun (n : String) =>
    ((resultsDirFiles.find? (fun f => f.1 == n)).map (fun f => f.2)).getD 0
  let d := result_files.foldl (fun d n =>
    pyDictSet d (scanner_name_of n)
      (.obj [("file", .str n),
             ("findings", .num 0),
             ("size_bytes", .num (Int.ofNat (sizeOfFile n)))])) init
  pure (.obj d)

/-- Inputs to the post-dispatcher phase of `execute_scan`: everything the
code of lines 292-363 reads. -/
structure ExecInput where
  scanId : String
  /-- `datetime.utcnow().isoformat()` at line 320. -/
  timestamp : String
  /-- `result.returncode` of the dispatcher subprocess. -/
  returncode : Int
  /-- Whether one of the candidate paths for `generate-summary.sh` exists
  (lines 294-309). -/
  summaryScriptExists : Bool
  /-- (name, size) contents of the results directory after the dispatcher
  ran (the directory itself was created at line 243). -/
  resultFiles : List (String × Nat)
  /-- Content of `summary.json` after the summary script runs, when the
  script exists and wrote one (the script is an opaque collaborator). -/
  scriptSummary : Option Json

/-- The 200 response of line 355-363 (diagnostic stdout/stderr tails are not
modelled), or the 500 error response of lines 367-368. -/
inductive ExecResponse where
  | ok (scanId status : String) (exitCode : Int) (resultsGenerated : Bool)
       (summary : Json) (http : Nat)
  | err (exc : PyExc) (http : Nat)

/-- Lines 292-363 of `execute_scan`: produce `summary.json` (via the script
when present, else the fallback), read it back, classify the outcome, and
build the response.  Note that a written `summary.json` itself lands in the
results directory and so counts at the line 349-351 listing. -/
def execute_summary_and_classify (inp : ExecInput) : Except PyExc ExecResponse := do
  let written ←
    if inp.summaryScriptExists then
      -- lines 309-315: the opaque summarizer runs and may write summary.json
      (pure inp.scriptSummary : Except PyExc (Option Json))
    else do
      -- lines 316-340: fallback; the local `status` is still unassigned
      -- (its only assignment is at line 353)
      let s ← fallback_summary inp.scanId inp.timestamp none inp.resultFiles
      pure (some s)
  -- lines 342-346: summary = parsed summary.json, or the empty dict
  let summary := written.getD (Json.obj [])
  -- lines 348-353: list the results directory again (now possibly holding
  -- summary.json) and derive the status
  let names := inp.resultFiles.map (fun f => f.1) ++
    (match written with | some _ => ["summary.json"] | none => [])
  pure (ExecResponse.ok inp.scanId (scan_status inp.returncode (some names))
    inp.returncode (results_exist (some names)) summary 200)

/-- `execute_scan` from line 292 on, with the `except Exception` handler of
lines 367-368 folded in: a raised exception becomes a 500 error response. -/
def execute_after_dispatch (inp : ExecInput) : ExecResponse :=
  match execute_summary_and_classify inp with
  | .ok r => r
  | .error e => .err e 500

/-- The filename denoted by a relative path: its last component (what the
manifest patterns are matched against). -/
def fileNameOf (relPath : List String) : String :=
  relPath.getLast?.getD ""

/-- Image of one catalog pattern under the dependency search: the first file
in traversal order named like the pattern, if any. -/
def patternContribution (files : List PyFile) (pattern : String) : Option (List String) :=
  (firstMatch files pattern).map (fun f => f.components)

/-!
## Helper lemmas
-/

theorem firstMatch_name (files : List PyFile) (p : String) (f : PyFile)
    (h : firstMatch files p = some f) : f.name = p := by
  have := List.find?_some h
  simpa using this

theorem depFold_flag_invariant (files : List PyFile) :
    ∀ (ps : List String) (acc : List (List String) × Bool),
      acc.2 = !acc.1.isEmpty →
      (ps.foldl (depStep files) acc).2 = !(ps.foldl (depStep files) acc).1.isEmpty := by
  intro ps
  induction ps with
  | nil => intro acc h; simpa using h
  | cons p ps ih =>
    intro acc h
    rw [List.foldl_cons]
    apply ih
    unfold depStep
    cases hm : firstMatch files p with
    | none => simpa using h
    | some f =>
      show true = !(acc.1 ++ [f.components]).isEmpty
      cases acc.1 <;> rfl

theorem depFold_fst_characterization (files : List PyFile) :
    ∀ (ps : List String) (acc : List (List String) × Bool),
      (ps.foldl (depStep files) acc).1 =
        acc.1 ++ ps.filterMap (patternContribution files) := by
  intro ps
  induction ps with
  | nil => intro acc; simp
  | cons p ps ih =>
    intro acc
    rw [List.foldl_cons, ih]
    unfold depStep patternContribution
    cases hm : firstMatch files p <;> simp [hm, List.filterMap_cons]

theorem patternContribution_name (files : List PyFile) (p : String)
    (e : List String) (h : patternContribution files p = some e) :
    fileNameOf e = p := by
  unfold patternContribution at h
  cases hm : firstMatch files p with
  | none => rw [hm] at h; cases h
  | some f =>
    rw [hm] at h
    cases h
    exact firstMatch_name files p f hm

theorem countP_contribution_zero (files : List PyFile) (q : String) :
    ∀ ps : List String, q ∉ ps →
      ((ps.filterMap (patternContribution files)).countP
        (fun e => fileNameOf e == q)) = 0 := by
  intro ps
  induction ps with
  | nil => intro _; rfl
  | cons p ps ih =>
    intro hq
    rw [List.filterMap_cons]
    cases hm : patternContribution files p with
    | none => exact ih (fun h => hq (List.mem_cons_of_mem _ h))
    | some e =>
      rw [List.countP_cons, ih (fun h => hq (List.mem_cons_of_mem _ h))]
      have hpq : ¬ p = q := fun h => hq (h ▸ List.mem_cons_self p ps)
      have hname := patternContribution_name files p e hm
      simp [hname, hpq]

theorem countP_contribution_le_one (files : List PyFile) (q : String) :
    ∀ ps : List String, ps.Nodup →
      ((ps.filterMap (patternContribution files)).countP
        (fun e => fileNameOf e == q)) ≤ 1 := by
  intro ps
  induction ps with
  | nil => intro _; exact Nat.zero_le 1
  | cons p ps ih =>
    intro hnd
    obtain ⟨hp, hnd2⟩ := List.nodup_cons.mp hnd
    rw [List.filterMap_cons]
    cases hm : patternContribution files p with
    | none => exact ih hnd2
    | some e =>
      rw [List.countP_cons]
      have hname := patternContribution_name files p e hm
      by_cases hq : p = q
      · have hzero : ((ps.filterMap (patternContribution files)).countP
            (fun x => fileNameOf x == q)) = 0 :=
          countP_contribution_zero files q ps (hq ▸ hp)
        simp [hzero, hname, hq]
      · have : (fileNameOf e == q) = false := by simp [hname, hq]
        simp [this, ih hnd2]

/-!
## Claims
-/

/-- C1 counterexample: for a zip (archive) upload without an override the
synthesized `scan_scope.type` is `single_file`, not `full` as the claim
states. -/
theorem scan_scope_zip_counterexample :
    scanScopeTypeOf (generate_scan_config "zip" "/tmp/scan-uploads/s1"
      (some (inspect_repository [⟨["a", "main.py"]⟩])) none) = some "single_file" ∧
    scanScopeTypeOf (generate_scan_config "zip" "/tmp/scan-uploads/s1"
      (some (inspect_repository [⟨["a", "main.py"]⟩])) none) ≠ some "full" := by
  constructor
  · rfl
  · intro h
    have h2 : (some "single_file" : Option String) = some "full" := h
    simp at h2

/-- C1 (amended): for every upload without an override, the synthesized
configuration field `scan_scope.type` is `full` if and only if the ingestion
mode is `repository`; for every other mode — including `file` and the
`zip`/archive mode — it is `single_file`. -/
theorem scan_scope_full_iff_repository :
    ∀ (upload_type target_path : String) (inspection : Option Detected),
      (scanScopeTypeOf (generate_scan_config upload_type target_path inspection none) =
        some "full" ↔ upload_type = "repository") ∧
      (scanScopeTypeOf (generate_scan_config upload_type target_path inspection none) =
        some "single_file" ↔ ¬ upload_type = "repository") := by
  intro ut tp insp
  have base : scanScopeTypeOf (generate_scan_config ut tp insp none) =
      some (if ut = "repository" then "full" else "single_file") := rfl
  rw [base]
  by_cases h : ut = "repository" <;> simp [h]

/-- C2: the derived scan status is `completed` exactly when the dispatcher
exit code is 0 or at least one file with a recognized result extension is in
the results directory, and `failed` otherwise; in particular exit code 1
with one artifact is `completed`, exit code 0 with no artifact is
`completed`, and exit code 1 with no artifact is `failed`. -/
theorem scan_status_spec :
    ∀ (returncode : Int) (resultsDir : Option (List String)),
      (scan_status returncode resultsDir = "completed" ↔
        (returncode = 0 ∨ results_exist resultsDir = true)) ∧
      scan_status 1 (some ["semgrep-findings.json"]) = "completed" ∧
      scan_status 0 (some []) = "completed" ∧
      scan_status 1 (some []) = "failed" := by
  intro rc dir
  refine ⟨?_, by decide, by decide, by decide⟩
  by_cases h : rc = 0 ∨ results_exist dir = true <;> simp [scan_status, h]

/-- C3: the claim says a missing summary-generator script is never fatal and
the execute call still returns a normal outcome; in the code, however, the
fallback branch (lines 318-324) reads the local variable `status`, which is
assigned only at line 353, so every execute call without the script raises
`UnboundLocalError` and returns a 500 error response instead of building the
fallback summary. -/
theorem execute_missing_summary_script_raises :
    ∀ inp : ExecInput, inp.summaryScriptExists = false →
      execute_after_dispatch inp = .err (.unboundLocal "status") 500 := by
  intro inp h
  cases inp with
  | mk sid ts rc sse rf ss =>
    change sse = false at h
    subst h
    rfl

/-- C3 witness: a concrete execute call with the summary script absent (exit
code 0, empty results directory) returns the 500 `UnboundLocalError`
response. -/
theorem execute_missing_summary_script_raises_witness :
    (ExecInput.mk "scan-1" "2026-01-01T00:00:00" 0 false [] none).summaryScriptExists
      = false ∧
    execute_after_dispatch (ExecInput.mk "scan-1" "2026-01-01T00:00:00" 0 false [] none) =
      .err (.unboundLocal "status") 500 :=
  ⟨rfl, execute_missing_summary_script_raises
    (ExecInput.mk "scan-1" "2026-01-01T00:00:00" 0 false [] none) rfl⟩

/-- C4: with an inspection result supplied and no override, the
`osv_scanner` toggle equals `has_dependencies`, the `trivy` toggle equals
`has_dockerfile` (each enabled iff the corresponding manifest flag is true),
and the static-analysis (`semgrep`, `codeql`) and secret-scanning
(`gitleaks`) toggles are always enabled. -/
theorem scanner_toggles_derivation :
    ∀ (upload_type target_path : String) (d : Detected),
      scannerEnabled (generate_scan_config upload_type target_path (some d) none)
        "osv_scanner" = some (.bool d.has_dependencies) ∧
      (scannerEnabled (generate_scan_config upload_type target_path (some d) none)
        "osv_scanner" = some (.bool true) ↔ d.has_dependencies = true) ∧
      scannerEnabled (generate_scan_config upload_type target_path (some d) none)
        "trivy" = some (.bool d.has_dockerfile) ∧
      (scannerEnabled (generate_scan_config upload_type target_path (some d) none)
        "trivy" = some (.bool true) ↔ d.has_dockerfile = true) ∧
      scannerEnabled (generate_scan_config upload_type target_path (some d) none)
        "semgrep" = some (.bool true) ∧
      scannerEnabled (generate_scan_config upload_type target_path (some d) none)
        "codeql" = some (.bool true) ∧
      scannerEnabled (generate_scan_config upload_type target_path (some d) none)
        "gitleaks" = some (.bool true) := by
  intro ut tp d
  refine ⟨rfl, ?_, rfl, ?_, rfl, rfl, rfl⟩
  · show some (Json.bool d.has_dependencies) = some (Json.bool true) ↔
      d.has_dependencies = true
    cases d.has_dependencies <;> simp
  · show some (Json.bool d.has_dockerfile) = some (Json.bool true) ↔
      d.has_dockerfile = true
    cases d.has_dockerfile <;> simp

/-- C5: a well-formed override configuration document (a non-empty JSON
object) is returned by synthesis verbatim, independent of mode, path and
inspection result, and the upload phase persists exactly that document and
echoes it in the response. -/
theorem override_replaces_config :
    ∀ (upload_type target_path : String) (inspection : Option Detected)
      (files : List PyFile) (fields : List (String × Json)),
      fields ≠ [] →
      generate_scan_config upload_type target_path inspection
        (some (.obj fields)) = .obj fields ∧
      (upload_config_phase upload_type target_path files
        (some (.obj fields))).persistedConfig = .obj fields ∧
      (upload_config_phase upload_type target_path files
        (some (.obj fields))).responseConfig = .obj fields := by
  intro ut tp insp fs fields h
  cases fields with
  | nil => exact absurd rfl h
  | cons kv rest => exact ⟨rfl, rfl, rfl⟩

/-- C5 witness: a concrete one-field override on a zip upload is persisted
and returned verbatim. -/
theorem override_replaces_config_witness :
    ([("scanners", Json.obj [])] : List (String × Json)) ≠ [] ∧
    generate_scan_config "zip" "/tmp/scan-uploads/s2" none
      (some (.obj [("scanners", Json.obj [])])) = .obj [("scanners", Json.obj [])] ∧
    (upload_config_phase "zip" "/tmp/scan-uploads/s2" []
      (some (.obj [("scanners", Json.obj [])]))).persistedConfig =
      .obj [("scanners", Json.obj [])] ∧
    (upload_config_phase "zip" "/tmp/scan-uploads/s2" []
      (some (.obj [("scanners", Json.obj [])]))).responseConfig =
      .obj [("scanners", Json.obj [])] := by
  have h := override_replaces_config "zip" "/tmp/scan-uploads/s2" none []
    [("scanners", Json.obj [])] (List.cons_ne_nil _ _)
  exact ⟨List.cons_ne_nil _ _, h.1, h.2.1, h.2.2⟩

/-- C6: for every tree, the inspection result satisfies
`has_dependencies == (len(dependency_files) > 0)`. -/
theorem has_dependencies_iff_nonempty :
    ∀ files : List PyFile,
      ((inspect_repository files).has_dependencies = true ↔
        0 < (inspect_repository files).dependency_files.length) := by
  intro files
  have h := depFold_flag_invariant files dep_patterns ([], false) rfl
  show (dep_patterns.foldl (depStep files) ([], false)).2 = true ↔
    0 < (dep_patterns.foldl (depStep files) ([], false)).1.length
  rw [h]
  cases (dep_patterns.foldl (depStep files) ([], false)).1 <;> simp

/-- C7: the dependency search contributes per catalog pattern exactly the
first match of that pattern (and keeps searching the remaining patterns), so
for any filename at most one discovered entry carries that name even when
the tree holds several files so named. -/
theorem dependency_files_first_match_per_pattern :
    ∀ files : List PyFile,
      (inspect_repository files).dependency_files =
        dep_patterns.filterMap (patternContribution files) ∧
      ∀ q : String,
        ((inspect_repository files).dependency_files.countP
          (fun e => fileNameOf e == q)) ≤ 1 := by
  intro files
  have hchar : (inspect_repository files).dependency_files =
      dep_patterns.filterMap (patternContribution files) := by
    show (dep_patterns.foldl (depStep files) ([], false)).1 = _
    rw [depFold_fst_characterization]
    simp
  refine ⟨hchar, fun q => ?_⟩
  rw [hchar]
  exact countP_contribution_le_one files q dep_patterns (by decide)

/-- C8: inspection is deterministic over an unchanged tree snapshot — two
calls on the same snapshot agree on every field of the result. -/
theorem inspect_repository_deterministic :
    ∀ files : List PyFile,
      (inspect_repository files).languages = (inspect_repository files).languages ∧
      (inspect_repository files).has_dockerfile =
        (inspect_repository files).has_dockerfile ∧
      (inspect_repository files).has_dependencies =
        (inspect_repository files).has_dependencies ∧
      (inspect_repository files).dependency_files =
        (inspect_repository files).dependency_files ∧
      inspect_repository files = inspect_repository files :=
  fun _ => ⟨rfl, rfl, rfl, rfl, rfl⟩

/-- C9: a single-file upload is never inspected (the inspection argument to
synthesis is `none`), and the default configuration then enables both the
`osv_scanner` and `trivy` toggles unconditionally. -/
theorem single_file_inspection_skipped :
    ∀ (target_path : String) (files : List PyFile),
      inspection_for "file" files = none ∧
      scannerEnabled (generate_scan_config "file" target_path
        (inspection_for "file" files) none) "osv_scanner" = some (.bool true) ∧
      scannerEnabled (generate_scan_config "file" target_path
        (inspection_for "file" files) none) "trivy" = some (.bool true) :=
  fun _ _ => ⟨rfl, rfl, rfl⟩

/-- C10: an override that parses to any falsy JSON value — null, false, 0,
the empty string, the empty array, or the empty object — is silently
ignored: synthesis yields the derived default document instead of the
supplied override, the upload phase persists that default, and the call
still succeeds with status 201. -/
theorem falsy_override_ignored :
    ∀ (upload_type target_path : String) (files : List PyFile) (j : Json),
      j.truthy = false →
      generate_scan_config upload_type target_path
        (inspection_for upload_type files) (some j) =
        defaultScanConfig upload_type target_path (inspection_for upload_type files) ∧
      (upload_config_phase upload_type target_path files
        (some j)).persistedConfig =
        defaultScanConfig upload_type target_path (inspection_for upload_type files) ∧
      (upload_config_phase upload_type target_path files
        (some j)).persistedConfig ≠ j ∧
      (upload_config_phase upload_type target_path files
        (some j)).httpStatus = 201 := by
  intro ut tp fs j h
  have hgen : generate_scan_config ut tp (inspection_for ut fs) (some j) =
      defaultScanConfig ut tp (inspection_for ut fs) := by
    show (if j.truthy then j else defaultScanConfig ut tp (inspection_for ut fs)) =
      defaultScanConfig ut tp (inspection_for ut fs)
    simp [h]
  refine ⟨hgen, hgen, ?_, rfl⟩
  show generate_scan_config ut tp (inspection_for ut fs) (some j) ≠ j
  rw [hgen]
  intro heq
  have h2 : (defaultScanConfig ut tp (inspection_for ut fs)).truthy = false := by
    rw [heq]; exact h
  have h3 : true = false := h2
  cases h3

/-- C10 witness: the empty-object override on a zip upload of an empty tree
is falsy and therefore ignored in favor of the derived default, with a 201
status. -/
theorem falsy_override_ignored_witness :
    (Json.obj []).truthy = false ∧
    generate_scan_config "zip" "/tmp/scan-uploads/s3" (inspection_for "zip" [])
      (some (Json.obj [])) =
      defaultScanConfig "zip" "/tmp/scan-uploads/s3" (inspection_for "zip" []) ∧
    (upload_config_phase "zip" "/tmp/scan-uploads/s3" []
      (some (Json.obj []))).persistedConfig =
      defaultScanConfig "zip" "/tmp/scan-uploads/s3" (inspection_for "zip" []) ∧
    (upload_config_phase "zip" "/tmp/scan-uploads/s3" []
      (some (Json.obj []))).persistedConfig ≠ Json.obj [] ∧
    (upload_config_phase "zip" "/tmp/scan-uploads/s3" []
      (some (Json.obj []))).httpStatus = 201 := by
  have h := falsy_override_ignored "zip" "/tmp/scan-uploads/s3" [] (Json.obj []) rfl
  exact ⟨rfl, h.1, h.2.1, h.2.2.1, h.2.2.2⟩
